import Mathlib

/-!
Verification of the mcp-registrar tool registry and task scheduler.

This file embeds the data model and the operations of the Rust sources
(`src/models/task.rs`, `src/servers/task_executor.rs`,
`src/servers/task_scheduler.rs`, `src/utils/task_storage.rs`,
`src/servers/tool_runtime/*`, `src/utils/chain.rs`,
`src/servers/tool_registry.rs`) as executable Lean definitions, and proves
or refutes the specified properties about them.

Conventions:
- `serde_json::Value` is modelled by the inductive `Json` (numbers as `Int`,
  which suffices for every value the claims touch).
- Wall-clock timestamps (`DateTime<Utc>`) are modelled as `Nat` instants
  passed explicitly, since only ordering and the event sequence matter.
- Machine integers are modelled as `Nat` with explicit saturation where the
  source uses saturating arithmetic (`u64::saturating_mul`).
- Fallible Rust functions returning `Result` are modelled with `Except`;
  a function mutating `&mut self` and returning `Result<(), E>` is modelled
  as returning the updated value paired with the error option.
- I/O effects (filesystem, HTTP, IPFS, cache) are supplied as explicit
  environment records of oracle functions, so the control flow of the
  embedded code is exactly that of the source.
-/

namespace McpRegistrar

/-- Model of `serde_json::Value`.  Objects keep their field order; lookup is
by first occurrence, matching map semantics for the unique-key objects the
code manipulates. -/
inductive Json where
  | null : Json
  | bool (b : Bool) : Json
  | num (n : Int) : Json
  | str (s : String) : Json
  | arr (items : List Json) : Json
  | obj (fields : List (String × Json)) : Json

/-- `serde_json::Value::get` on an object (None on any other variant). -/
def Json.get : Json → String → Option Json
  | .obj fields, key => fields.lookup key
  | _, _ => none

/-- `serde_json::Value::is_object`. -/
def Json.isObject : Json → Bool
  | .obj _ => true
  | _ => false

/-- `serde_json::Value::as_str` as an option. -/
def Json.asString : Json → Option String
  | .str s => some s
  | _ => none

/-- `serde_json::Value::is_string`. -/
def Json.isString : Json → Bool
  | .str _ => true
  | _ => false

/-- `str::starts_with` (defined over the character list so that it
computes by kernel reduction). -/
def strStartsWith (s pre : String) : Bool :=
  pre.data.isPrefixOf s.data

/-- `str::split('/').next().unwrap_or("")`: the characters before the
first `/`. -/
def firstSegment (s : String) : String :=
  String.mk (s.data.takeWhile (fun c => c != '/'))

/-- `TaskStatus` from `src/models/task.rs`. -/
inductive TaskStatus where
  | Pending
  | Running
  | Completed
  | Failed
  | Cancelled
  | Scheduled
deriving DecidableEq, Repr

/-- `TaskStatus::valid_next_states` from `src/models/task.rs` (the static
`HashSet`s, as lists; membership is what matters). -/
def TaskStatus.valid_next_states : TaskStatus → List TaskStatus
  | .Pending => [.Running, .Scheduled, .Cancelled]
  | .Running => [.Completed, .Failed, .Cancelled, .Scheduled]
  | .Failed => [.Scheduled]
  | .Scheduled => [.Running, .Cancelled]
  | .Completed => []
  | .Cancelled => []

/-- `TaskStatus::can_transition_to`. -/
def TaskStatus.can_transition_to (s target : TaskStatus) : Bool :=
  s.valid_next_states.contains target

/-- The `{:?}` debug rendering of a status, used in event messages. -/
def TaskStatus.debugName : TaskStatus → String
  | .Pending => "Pending"
  | .Running => "Running"
  | .Completed => "Completed"
  | .Failed => "Failed"
  | .Cancelled => "Cancelled"
  | .Scheduled => "Scheduled"

/-- `TaskSchedule` from `src/models/task.rs`; `run_at` is a model instant. -/
structure TaskSchedule where
  cron : Option String
  delay : Option Nat
  run_at : Option Nat
deriving DecidableEq, Repr

/-- `TaskEvent` from `src/models/task.rs`. -/
structure TaskEvent where
  timestamp : Nat
  status : TaskStatus
  message : Option String
deriving DecidableEq, Repr

/-- `Task` from `src/models/task.rs`.  The loop-detection fields
(`frustration`, `frustration_threshold`, `similarity_threshold`,
`response_cache`) and the resource-limit fields are omitted: no operation
embedded here reads or writes them. -/
structure Task where
  id : String
  tool : String
  arguments : Json
  status : TaskStatus
  created_at : Nat
  updated_at : Nat
  schedule : Option TaskSchedule
  result : Option Json
  error : Option String
  retries : Nat
  max_retries : Nat
  timeout : Nat
  event_log : List TaskEvent

/-- `Task::new` (the UUID is passed in, the clock is the `now` instant). -/
def Task.new (id tool : String) (arguments : Json) (schedule : Option TaskSchedule)
    (max_retries : Option Nat) (timeout : Option Nat) (now : Nat) : Task :=
  { id := id
    tool := tool
    arguments := arguments
    status := .Pending
    created_at := now
    updated_at := now
    schedule := schedule
    result := none
    error := none
    retries := 0
    max_retries := max_retries.getD 3
    timeout := timeout.getD 60
    event_log := [{ timestamp := now, status := .Pending, message := some "Task created" }] }

/-- `Task::log_event`. -/
def Task.log_event (t : Task) (now : Nat) (status : TaskStatus) (message : Option String) : Task :=
  { t with event_log := t.event_log ++ [{ timestamp := now, status := status, message := message }] }

/-- `Task::update_status`: validated transition.  Returns the task after the
call together with the error (`none` on success), mirroring the `&mut self`
receiver: on an invalid transition nothing is mutated. -/
def Task.update_status (t : Task) (now : Nat) (new_status : TaskStatus) :
    Task × Option String :=
  if t.status.can_transition_to new_status then
    ({ t with
        status := new_status
        updated_at := now
        event_log := t.event_log ++
          [{ timestamp := now, status := new_status,
             message := some ("Status changed to " ++ new_status.debugName) }] },
      none)
  else
    (t, some ("Invalid status transition from " ++ t.status.debugName ++
      " to " ++ new_status.debugName))

/-- `Task::set_status`: unconditional status write (no validation). -/
def Task.set_status (t : Task) (now : Nat) (status : TaskStatus) : Task :=
  { t with status := status, updated_at := now }

/-- `TaskSchedulerServer::cancel_task` (`src/servers/task_scheduler.rs`):
sets `Cancelled` via `set_status` on the fetched task. -/
def scheduler_cancel_task (now : Nat) (t : Task) : Task :=
  t.set_status now .Cancelled

/-- `TaskSchedulerServer::update_task_status` (the `UpdateTaskStatus`
method): applies the requested status via `set_status` on the fetched
task. -/
def scheduler_update_task_status (now : Nat) (t : Task) (status : TaskStatus) : Task :=
  t.set_status now status

/-- Outcome of `tool_invoker.invoke_tool` under the executor timeout, as
observed by `TaskExecutor::execute_task`: `Ok(Ok(v))`, `Ok(Err(e))`, or the
elapsed timeout. -/
inductive InvokeOutcome where
  | success (v : Json)
  | failure (msg : String)
  | timeout

/-- `TaskExecutor::execute_task` (`src/servers/task_executor.rs`).  Returns
the task state persisted to storage together with the function result.  An
early `?` return leaves the previously persisted state in storage: before
the first successful `update_status(Running)` that is the input task; after
it, the `Running` task that was persisted mid-function. -/
def execute_task (now : Nat) (outcome : InvokeOutcome) (task : Task) :
    Task × Except String Unit :=
  match task.update_status now .Running with
  | (_, some e) => (task, .error e)
  | (t1, none) =>
    let t2 := t1.log_event now .Running (some "Task started")
    match outcome with
    | .success v =>
      let t3 := { t2 with result := some v }
      let t4 := t3.log_event now .Completed (some "Task completed successfully")
      match t4.update_status now .Completed with
      | (_, some e) => (t2, .error e)
      | (t5, none) => (t5, .ok ())
    | .failure msg =>
      let t3 := { t2 with error := some msg }
      let t4 := t3.log_event now .Failed (some ("Task failed: " ++ msg))
      match t4.update_status now .Failed with
      | (_, some e) => (t2, .error e)
      | (t5, none) => (t5, .error ("Tool invocation failed: " ++ msg))
    | .timeout =>
      let t3 := { t2 with error := some "Task timed out" }
      let t4 := t3.log_event now .Failed (some "Task timed out")
      match t4.update_status now .Failed with
      | (_, some e) => (t2, .error e)
      | (t5, none) => (t5, .error "Task execution timed out")

/-- `FileTaskStorage::get_next_task` (`src/utils/task_storage.rs`): the
first task whose status is `Pending`. -/
def get_next_task (tasks : List Task) : Option Task :=
  tasks.find? (fun t => t.status == .Pending)

/-- `FileTaskStorage::update_task`: replace the task with the same id. -/
def storage_update_task (store : List Task) (t : Task) : List Task :=
  store.map (fun u => if u.id = t.id then t else u)

/-- One iteration of `TaskExecutor::run_task_loop`: fetch the next runnable
task (`get_next_task`), skip it if `Cancelled`, otherwise run
`execute_task` and persist the resulting task state.  The tool invocation
outcome for the iteration is supplied by `outcome`. -/
def scheduler_step (now : Nat) (outcome : InvokeOutcome) (store : List Task) : List Task :=
  match get_next_task store with
  | none => store
  | some task =>
    if task.status = .Cancelled then store
    else storage_update_task store (execute_task now outcome task).fst

/-- Iterate `scheduler_step` a given number of times against a tool whose
invocation outcome is the same every round (the claims use a tool that
always errors). -/
def scheduler_run (outcome : InvokeOutcome) : Nat → Nat → List Task → List Task
  | 0, _, store => store
  | n + 1, now, store => scheduler_run outcome n (now + 1) (scheduler_step now outcome store)

/-- The task of spec scenario 6: `max_retries = 2`, default timeout,
created at instant 0. -/
def alwaysFailTask : Task :=
  Task.new "t1" "failing-tool" (Json.obj []) none (some 2) (some 60) 0

/-- The `Error` enum of `src/error.rs` (`Io` and `Other` carry their
rendered message). -/
inductive Err where
  | io (msg : String)
  | notFound
  | invalidState (msg : String)
  | serialization (msg : String)
  | other (msg : String)
deriving DecidableEq, Repr

/-- `ModulePointer` from `src/utils/chain.rs`. -/
structure ModulePointer where
  module_id : String
  uri : String
  owner : String
  digest : Option String
  signature : Option String
  version : Option String
deriving DecidableEq, Repr

/-- Serde deserialization of a required `String` field: absent or
non-string fails. -/
def reqString (fields : List (String × Json)) (key : String) : Option String :=
  (fields.lookup key).bind Json.asString

/-- Serde deserialization of an `Option<String>` field: absent or `null`
gives `none`, a string gives `some`, any other variant fails. -/
def optString (fields : List (String × Json)) (key : String) : Option (Option String) :=
  match fields.lookup key with
  | none => some none
  | some .null => some none
  | some (.str s) => some (some s)
  | some _ => none

/-- `serde_json::from_value::<ModulePointer>`: `module_id`, `uri` and
`owner` are required strings; `digest`, `signature`, `version` are
optional. -/
def modulePointerFromJson : Json → Option ModulePointer
  | .obj fields => do
    let module_id ← reqString fields "module_id"
    let uri ← reqString fields "uri"
    let owner ← reqString fields "owner"
    let digest ← optString fields "digest"
    let signature ← optString fields "signature"
    let version ← optString fields "version"
    pure { module_id := module_id, uri := uri, owner := owner,
           digest := digest, signature := signature, version := version }
  | _ => none

/-- The `obj_map.entry("module_id").or_insert(key)` step of
`FileChainIndex::load_map`: inject the map key as `module_id` when the
field is absent. -/
def injectModuleId (key : String) (fields : List (String × Json)) : List (String × Json) :=
  if (fields.lookup "module_id").isSome then fields
  else fields ++ [("module_id", .str key)]

/-- Wrapped-map branch of `load_map` (`{ "modules": { id: pointer } }`):
every value must be an object and deserialize; any failure aborts with an
error (the `?` in the source).  Serde error messages are summarized. -/
def loadWrapped : List (String × Json) → Except Err (List (String × ModulePointer))
  | [] => .ok []
  | (key, mv) :: rest =>
    match mv with
    | .obj fields =>
      match modulePointerFromJson (.obj (injectModuleId key fields)) with
      | some mp => (loadWrapped rest).map (fun out => (key, mp) :: out)
      | none => .error (.serialization "module pointer deserialization failed")
    | _ => .error (.serialization "expected object")

/-- Flat-map branch of `load_map` (`{ id: pointer }`): non-object values
and values that fail to deserialize are silently skipped. -/
def loadFlat : List (String × Json) → List (String × ModulePointer)
  | [] => []
  | (key, mv) :: rest =>
    match mv with
    | .obj fields =>
      match modulePointerFromJson (.obj (injectModuleId key fields)) with
      | some mp => (key, mp) :: loadFlat rest
      | none => loadFlat rest
    | _ => loadFlat rest

/-- Array branch of `load_map` (`[pointer, …]`): every element must
deserialize (each item must carry its own `module_id`); failure aborts. -/
def loadArray : List Json → Except Err (List (String × ModulePointer))
  | [] => .ok []
  | mv :: rest =>
    match modulePointerFromJson mv with
    | some mp => (loadArray rest).map (fun out => (mp.module_id, mp) :: out)
    | none => .error (.serialization "module pointer deserialization failed")

/-- `FileChainIndex::load_map` (`src/utils/chain.rs`): try the wrapped map
shape, then the flat map shape (succeeding only when at least one entry
deserialized), then the array shape, else an unsupported-format error. -/
def load_map (v : Json) : Except Err (List (String × ModulePointer)) :=
  match v.get "modules" with
  | some (.obj mods) => loadWrapped mods
  | _ =>
    match v with
    | .obj fields =>
      let out := loadFlat fields
      if out.isEmpty then .error (.invalidState "unsupported CHAIN_INDEX_FILE format")
      else .ok out
    | .arr items => loadArray items
    | _ => .error (.invalidState "unsupported CHAIN_INDEX_FILE format")

/-- `FileChainIndex::fetch_module_pointer`: load the map and look the id
up, `NotFound` when absent. -/
def file_fetch_module_pointer (v : Json) (module_id : String) : Except Err ModulePointer :=
  match load_map v with
  | .error e => .error e
  | .ok map =>
    match map.lookup module_id with
    | some mp => .ok mp
    | none => .error .notFound

/-- The environment consulted by `resolve_chain_uri`: which of
`CHAIN_INDEX_FILE` / `CHAIN_INDEX_URL` / (feature `chain-rpc` +
`CHAIN_RPC_URL`) are configured, and the outcome of the corresponding
external queries.  `indexFileJson = some r` means the env var is set and
reading+parsing the file produced `r`. -/
structure ChainEnv where
  indexFileJson : Option (Except Err Json)
  indexUrlFetch : Option (String → Except Err ModulePointer)
  rpcFeature : Bool
  rpcResolve : Option (String → Except Err ModulePointer)

/-- The configuration-error message of `resolve_chain_uri`. -/
def chainConfigErr : Err :=
  .invalidState "Set CHAIN_INDEX_FILE or CHAIN_INDEX_URL to resolve chain:// (or enable feature `chain-rpc` and set CHAIN_RPC_URL)"

/-- `resolve_chain_uri` (`src/utils/chain.rs`): strip `chain://`, then try
the file index, the HTTP index, the chain RPC (behind the `chain-rpc`
feature), in that order; otherwise fail with a configuration error. -/
def resolve_chain_uri (env : ChainEnv) (module_uri : String) : Except Err ModulePointer :=
  if strStartsWith module_uri "chain://" then
    let id := module_uri.drop 8
    match env.indexFileJson with
    | some (.error e) => .error e
    | some (.ok v) => file_fetch_module_pointer v id
    | none =>
      match env.indexUrlFetch with
      | some fetch => fetch id
      | none =>
        if env.rpcFeature then
          match env.rpcResolve with
          | some rpc => rpc module_uri
          | none => .error chainConfigErr
        else .error chainConfigErr
  else .error (.invalidState "invalid chain uri")

/-- `str::trim_start_matches(pat)`: repeatedly strip the prefix while it
matches (fueled by the string length; each strip removes at least one
character). -/
def trimStartMatchesFuel : Nat → String → String → String
  | 0, s, _ => s
  | fuel + 1, s, pat =>
    if pat.length > 0 && strStartsWith s pat then
      trimStartMatchesFuel fuel (s.drop pat.length) pat
    else s

/-- `str::trim_start_matches`. -/
def trimStartMatches (s pat : String) : String :=
  trimStartMatchesFuel s.length s pat

/-- The `cid-<first path segment>` cache key the Wasm executor computes
from an `ipfs://` URI: `format!("cid-{}", uri.trim_start_matches("ipfs://").split('/').next().unwrap_or(""))`. -/
def cidCacheKey (uri : String) : String :=
  "cid-" ++ firstSegment (trimStartMatches uri "ipfs://")

/-- External effects consulted by `WasmExecutor::invoke` while resolving
module bytes: the local filesystem, the content cache
(`module_cache::read`), the chain environment, and the IPFS/HTTP
fetchers.  Digest and signature verification outcomes
(`chain::verify_digest`, `chain::verify_signature_sr25519`) are oracles.
Cache writes are best-effort fire-and-forget in the source and are not
threaded through the state. -/
structure WasmEnv where
  pathExists : String → Bool
  fsRead : String → Option (List Nat)
  cacheRead : String → Option (List Nat)
  chain : ChainEnv
  ipfsFetch : String → Except Err (List Nat)
  httpFetch : String → Except Err (List Nat)
  digestOk : List Nat → String → Bool
  sigOk : List Nat → Option String → String → String → Bool

/-- `tokio::fs::read` with the executor's error mapping
(`Error::Serialization(e.to_string())`; the io message is summarized). -/
def wasmFsRead (env : WasmEnv) (path : String) : Except Err (List Nat) :=
  match env.fsRead path with
  | some bytes => .ok bytes
  | none => .error (.serialization "read error")

/-- Fetch of `pointer.uri` in the digest-bearing `chain://` branch of
`WasmExecutor::invoke`: IPFS for `ipfs://`, HTTP for `http(s)://`, local
file otherwise. -/
def fetchPointerUri (env : WasmEnv) (uri : String) : Except Err (List Nat) :=
  if strStartsWith uri "ipfs://" then env.ipfsFetch uri
  else if strStartsWith uri "http://" || strStartsWith uri "https://" then env.httpFetch uri
  else wasmFsRead env uri

/-- Cache-or-fetch by CID used for digestless `ipfs://` URIs. -/
def cachedIpfsFetch (env : WasmEnv) (uri : String) : Except Err (List Nat) :=
  match env.cacheRead (cidCacheKey uri) with
  | some bytes => .ok bytes
  | none => env.ipfsFetch uri

/-- The module-byte resolution of `WasmExecutor::invoke`
(`src/servers/tool_runtime/executors/wasm.rs`, lines 26–88), including the
`Path::new(module_path).exists()` check the function performs FIRST, before
any `chain://` / `ipfs://` dispatch. -/
def resolve_module_bytes (env : WasmEnv) (module_path : String) : Except Err (List Nat) :=
  if !(env.pathExists module_path) then
    .error (.invalidState ("wasm module not found at \"" ++ module_path ++ "\""))
  else if strStartsWith module_path "chain://" then
    match resolve_chain_uri env.chain module_path with
    | .error e => .error e
    | .ok mp =>
      match mp.digest with
      | some d =>
        match env.cacheRead ("sha256-" ++ d) with
        | some bytes => .ok bytes
        | none =>
          match fetchPointerUri env mp.uri with
          | .error e => .error e
          | .ok fetched =>
            if !(env.digestOk fetched d) then
              .error (.invalidState "module digest mismatch")
            else
              match mp.signature with
              | some sig =>
                if !(env.sigOk fetched mp.digest mp.owner sig) then
                  .error (.invalidState "invalid sr25519 signature")
                else .ok fetched
              | none => .ok fetched
      | none =>
        if strStartsWith mp.uri "ipfs://" then cachedIpfsFetch env mp.uri
        else if strStartsWith mp.uri "http://" || strStartsWith mp.uri "https://" then
          env.httpFetch mp.uri
        else wasmFsRead env mp.uri
  else if strStartsWith module_path "ipfs://" then cachedIpfsFetch env module_path
  else wasmFsRead env module_path

/-- The fuel budget `WasmExecutor::invoke` sets on the store:
`std::cmp::max(1_000_000, policy.cpu_time_ms.saturating_mul(10_000))` with
`cpu_time_ms : u64`. -/
def U64_MAX : Nat := 2 ^ 64 - 1

/-- `u64::saturating_mul`. -/
def u64SaturatingMul (a b : Nat) : Nat := min (a * b) U64_MAX

/-- The Wasm fuel budget computed from the policy. -/
def fuel_budget (cpu_time_ms : Nat) : Nat :=
  max 1000000 (u64SaturatingMul cpu_time_ms 10000)

/-- Output-length enforcement in `WasmExecutor::invoke`: the `(out_ptr,
out_len)` pair returned by the module, `out_len : i32`; negative lengths
are rejected, then `out_len as usize > policy.max_output_bytes` is
rejected. -/
def wasm_check_output_len (max_output_bytes : Nat) (out_len : Int) : Except Err Unit :=
  if out_len < 0 then .error (.invalidState "negative length from wasm")
  else if out_len.toNat > max_output_bytes then
    .error (.invalidState "tool output too large")
  else .ok ()

/-- Response-line handling of `ProcessExecutor::invoke`
(`src/servers/tool_runtime/executors/process.rs`, after the read timeout):
`None` is an empty response, a line longer than `max_output_bytes` (in
UTF-8 bytes, Rust `str::len`) is rejected, then the line is parsed as
JSON (`parse` abstracts `serde_json::from_str`). -/
def process_handle_response (parse : String → Option Json) (max_output_bytes : Nat)
    (opt_line : Option String) : Except Err Json :=
  match opt_line with
  | none => .error (.invalidState "empty tool response")
  | some line =>
    if line.utf8ByteSize > max_output_bytes then
      .error (.invalidState "tool output too large")
    else
      match parse line with
      | some v => .ok v
      | none => .error (.serialization "json parse error")

/-- A directory entry produced by the recursive walk in `load_manifests`
(`walkdir`, errors already filtered out by `filter_map(Result::ok)`).
`content = none` models a file whose `fs::read_to_string` fails (an I/O
error or bytes that are not valid UTF-8). -/
structure FsEntry where
  is_file : Bool
  file_name : String
  path : String
  content : Option String
deriving DecidableEq, Repr

/-- The error a failed `fs::read_to_string` propagates out of
`load_manifests` through `?` (the io message is summarized; only the fact
that the whole load errors matters). -/
inductive LoadErr where
  | readError (path : String)
deriving DecidableEq, Repr

/-- The walk loop of `load_manifests`: skip non-files and files not named
`tool.json`; a `fs::read_to_string` failure aborts the whole load via `?`;
a `serde_json::from_str` failure (`parse` returning `none`) is logged and
skipped.  Manifests are abstracted to their parsed JSON value, paired with
the manifest path. -/
def load_manifests_walk (parse : String → Option Json) :
    List FsEntry → Except LoadErr (List (Json × String))
  | [] => .ok []
  | e :: rest =>
    if !e.is_file then load_manifests_walk parse rest
    else if e.file_name != "tool.json" then load_manifests_walk parse rest
    else
      match e.content with
      | none => .error (.readError e.path)
      | some content =>
        match parse content with
        | some m => (load_manifests_walk parse rest).map (fun out => (m, e.path) :: out)
        | none => load_manifests_walk parse rest

/-- `load_manifests` (`src/servers/tool_runtime/manifest.rs`): if the root
does not exist, return the empty list; otherwise walk the entries. -/
def load_manifests (rootExists : Bool) (parse : String → Option Json)
    (entries : List FsEntry) : Except LoadErr (List (Json × String)) :=
  if !rootExists then .ok []
  else load_manifests_walk parse entries

/-- The expected result of a walk in which every `tool.json` is readable:
the parsed `(manifest, path)` pair of each `tool.json` whose content
parses, with parse failures (and non-files / other names) skipped. -/
def manifest_walk_spec (parse : String → Option Json) : List FsEntry → List (Json × String)
  | [] => []
  | e :: rest =>
    if e.is_file && e.file_name == "tool.json" then
      match e.content.bind parse with
      | some m => (m, e.path) :: manifest_walk_spec parse rest
      | none => manifest_walk_spec parse rest
    else manifest_walk_spec parse rest

/-- `Tool` from `src/models/tool.rs` (the `registered_at` timestamp and
free-form `metadata` map are omitted; no embedded operation reads them). -/
structure Tool where
  id : String
  name : String
  description : String
  version : String
  server_id : String
  categories : List String
  parameters_schema : Option Json
  returns_schema : Option Json

/-- The required-fields loop inside `Tool::validate_parameters`. -/
def requiredFieldsOk (params : Json) : List Json → Except String Unit
  | [] => .ok ()
  | f :: rest =>
    match f with
    | .str fieldName =>
      if (params.get fieldName).isSome then requiredFieldsOk params rest
      else .error ("Required parameter " ++ "\x27" ++ fieldName ++ "\x27" ++ " is missing")
    | _ => requiredFieldsOk params rest

/-- `Tool::validate_parameters` (`src/models/tool.rs`): no schema accepts
anything; with a schema, both schema and parameters must be objects, then
each string in the schema's `required` array must be present as a key of
the parameters. -/
def Tool.validate_parameters (t : Tool) (params : Json) : Except String Unit :=
  match t.parameters_schema with
  | none => .ok ()
  | some schema =>
    if schema.isObject && params.isObject then
      match schema.get "required" with
      | some (.arr fields) => requiredFieldsOk params fields
      | _ => .ok ()
    else .error "Parameters must be an object"

/-- The per-tool record the registry's `manifests` map stores
(`StoredManifest` in `src/servers/tool_registry.rs`).  The compiled
`jsonschema::Validator`s are abstracted to predicates on JSON values;
`none` models an absent / failed-to-compile validator.  The runtime
variant only selects which executor runs, which the environment's
`execOutcome` already accounts for. -/
structure StoredManifest where
  params_validator : Option (Json → Bool)
  returns_validator : Option (Json → Bool)

/-- Environment of a single `ToolRegistryServer::invoke_tool` call: tool
storage lookup, the registered-servers list, the manifests map, and the
outcome of the selected executor's `invoke` (already rendered to a string
error by the `map_err(|e| e.to_string())` at the call site). -/
structure RegistryEnv where
  getTool : String → Option Tool
  registeredServers : List String
  manifests : String → Option StoredManifest
  execOutcome : Except String Json

/-- The MCP error result `invoke_tool` substitutes for a failed executor:
`{"content":[{"type":"text","text":"error: <msg>"}],"isError":true}`. -/
def errorResultJson (msg : String) : Json :=
  .obj [("content", .arr [.obj [("type", .str "text"), ("text", .str ("error: " ++ msg))]]),
        ("isError", .bool true)]

/-- What `invoke_tool` puts into the `ToolInvocationResult` (timestamps
omitted), plus whether an executor was actually run. -/
structure InvocationOutcome where
  result : Json
  error : Option String
  ranExecutor : Bool

/-- The executor-and-returns-validation tail of
`ToolRegistryServer::invoke_tool` (once a manifest entry was found and the
compiled parameter validator, if any, accepted the arguments): run the
selected executor, map an executor error to the MCP error result, then
validate the value against the compiled returns validator if present. -/
def registry_run_executor (env : RegistryEnv) (stored : StoredManifest) :
    Except String InvocationOutcome :=
  let v :=
    match env.execOutcome with
    | .ok v => v
    | .error e => errorResultJson e
  match stored.returns_validator with
  | some rv =>
    if !(rv v) then .error "Tool returned payload failing returns schema"
    else .ok { result := v, error := none, ranExecutor := true }
  | none => .ok { result := v, error := none, ranExecutor := true }

/-- `ToolRegistryServer::invoke_tool` (`src/servers/tool_registry.rs`,
lines 380–459): look up the tool; validate parameters with
`Tool::validate_parameters`; require the tool's `server_id` to be in the
registered-servers list; if a manifest entry exists, check the compiled
parameter validator, run the executor, replace an executor error by the
MCP error result, and check the compiled returns validator against the
resulting value (error result included); without a manifest entry the
result is JSON `null` and no executor runs. -/
def registry_invoke_tool (env : RegistryEnv) (tool_id : String) (params : Json) :
    Except String InvocationOutcome :=
  match env.getTool tool_id with
  | none => .error ("Tool with ID " ++ tool_id ++ " not found")
  | some tool =>
    match tool.validate_parameters params with
    | .error e => .error e
    | .ok () =>
      if env.registeredServers.contains tool.server_id then
        match env.manifests tool.id with
        | some stored =>
          match stored.params_validator with
          | some pv =>
            if !(pv params) then .error "Parameters failed schema validation"
            else registry_run_executor env stored
          | none => registry_run_executor env stored
        | none => .ok { result := .null, error := none, ranExecutor := false }
      else .error ("Server with ID " ++ tool.server_id ++ " not registered")

/-- A task already in the terminal `Completed` state (as left by a
successful run). -/
def completedTask : Task :=
  { id := "t2"
    tool := "echo"
    arguments := .obj []
    status := .Completed
    created_at := 0
    updated_at := 4
    schedule := none
    result := some (.str "ok")
    error := none
    retries := 0
    max_retries := 3
    timeout := 60
    event_log := [] }

/-- A 64-hex-character owner key, as accepted by
`decode_pubkey_from_owner`. -/
def hexOwner : String :=
  "aa00aa00aa00aa00aa00aa00aa00aa00aa00aa00aa00aa00aa00aa00aa00aa00"

/-- The flat-map index file of spec scenario 5:
`{"m1":{"uri":"ipfs://cid1","owner":"<hex32>"}}`. -/
def c7FileJson : Json :=
  .obj [("m1", .obj [("uri", .str "ipfs://cid1"), ("owner", .str hexOwner)])]

/-- The pointer scenario 5 expects back (the `m1` map key injected as
`module_id`). -/
def c7Pointer : ModulePointer :=
  { module_id := "m1", uri := "ipfs://cid1", owner := hexOwner,
    digest := none, signature := none, version := none }

/-- A wrapped-map index file `{"modules":{"m2":{…}}}` without an explicit
`module_id`. -/
def c7WrappedJson : Json :=
  .obj [("modules", .obj [("m2", .obj [("uri", .str "ipfs://cid2"), ("owner", .str hexOwner)])])]

/-- The pointer the wrapped map yields for `m2`. -/
def c7WrappedPointer : ModulePointer :=
  { module_id := "m2", uri := "ipfs://cid2", owner := hexOwner,
    digest := none, signature := none, version := none }

/-- An array-shaped index file `[{"module_id":"m3",…}]`. -/
def c7ArrayJson : Json :=
  .arr [.obj [("module_id", .str "m3"), ("uri", .str "ipfs://cid3"), ("owner", .str hexOwner)]]

/-- The pointer the array shape yields for `m3`. -/
def c7ArrayPointer : ModulePointer :=
  { module_id := "m3", uri := "ipfs://cid3", owner := hexOwner,
    digest := none, signature := none, version := none }

/-- A chain environment with only a file index configured, resolving `m1`
to an `ipfs://cid1` pointer carrying a digest. -/
def c2Chain : ChainEnv :=
  { indexFileJson :=
      some (.ok (.obj [("m1", .obj [("uri", .str "ipfs://cid1"), ("owner", .str hexOwner),
                                    ("digest", .str "d0d0")])]))
    indexUrlFetch := none
    rpcFeature := false
    rpcResolve := none }

/-- The Wasm executor's environment for the `chain://m1` tool: no local
file at any path, the chain index of `c2Chain`, and the content cache
already holding the verified bytes under `sha256-d0d0`. -/
def c2Env : WasmEnv :=
  { pathExists := fun _ => false
    fsRead := fun _ => none
    cacheRead := fun key => if key = "sha256-d0d0" then some [7, 7] else none
    chain := c2Chain
    ipfsFetch := fun _ => .error .notFound
    httpFetch := fun _ => .error .notFound
    digestOk := fun _ _ => true
    sigOk := fun _ _ _ _ => true }

/-- A manifest-backed tool registered under the implicit `manifest`
server, with no schemas of its own. -/
def c5Tool : Tool :=
  { id := "t1", name := "demo", description := "a demo tool", version := "0.1.0",
    server_id := "manifest", categories := [],
    parameters_schema := none, returns_schema := none }

/-- Registry state for `c5Tool` whose manifest compiled a returns schema
of `{"type":"string"}` (a validator accepting only JSON strings) and whose
executor fails. -/
def c5Env : RegistryEnv :=
  { getTool := fun tid => if tid = "t1" then some c5Tool else none
    registeredServers := ["manifest"]
    manifests := fun tid =>
      if tid = "t1" then
        some { params_validator := none, returns_validator := some Json.isString }
      else none
    execOutcome := .error "Invalid state: wasm tool t1 timed out" }

/-- Registry state for `c5Tool` with no compiled returns schema and a
failing executor. -/
def c5PlainEnv : RegistryEnv :=
  { getTool := fun tid => if tid = "t1" then some c5Tool else none
    registeredServers := ["manifest"]
    manifests := fun tid =>
      if tid = "t1" then some { params_validator := none, returns_validator := none }
      else none
    execOutcome := .error "boom" }

/-- A tool persisted in tool storage under a server id that is not in the
current process's registered-servers list (tool storage is durable, the
server list is in-memory and re-seeded with only `manifest` at
initialization). -/
def c10Tool : Tool :=
  { id := "t9", name := "stale", description := "persisted tool", version := "1.0.0",
    server_id := "ext", categories := [],
    parameters_schema := none, returns_schema := none }

/-- Registry state holding `c10Tool` while only `manifest` is
registered. -/
def c10Env : RegistryEnv :=
  { getTool := fun tid => if tid = "t9" then some c10Tool else none
    registeredServers := ["manifest"]
    manifests := fun _ => none
    execOutcome := .ok .null }

/-- Registry state holding `c10Tool` with its server registered but no
manifest entry (a tool added through `register_tool`). -/
def c10GoodEnv : RegistryEnv :=
  { getTool := fun tid => if tid = "t9" then some c10Tool else none
    registeredServers := ["manifest", "ext"]
    manifests := fun _ => none
    execOutcome := .ok .null }

/-- A `tool.json` whose bytes cannot be read to a string (e.g. invalid
UTF-8 — a malformed manifest file). -/
def c8BadEntry : FsEntry :=
  { is_file := true, file_name := "tool.json", path := "tools/echo/tool.json", content := none }

/-- A directory walk with one readable well-formed manifest, one readable
malformed manifest, one directory entry and one unrelated file. -/
def c8Entries : List FsEntry :=
  [ { is_file := true, file_name := "tool.json", path := "tools/a/tool.json", content := some "A" },
    { is_file := true, file_name := "tool.json", path := "tools/b/tool.json", content := some "B" },
    { is_file := false, file_name := "tool.json", path := "tools/c", content := none },
    { is_file := true, file_name := "readme.md", path := "tools/readme.md", content := none } ]

/-- A parser for `c8Entries` under which only the `A` manifest is
well-formed JSON. -/
def c8Parse : String → Option Json :=
  fun s => if s = "A" then some (.str "A") else none

/-- Claim C1.  The claim says a task with `max_retries = 2` and a tool
that always errors goes through three Running/Failed rounds with
exponential-backoff rescheduling and ends with `retries == 2`.  Evaluating
the embedded scheduler loop at that input: the task runs exactly once,
ends `Failed` with `retries = 0`, its event log is `Pending, Running,
Running, Failed, Failed` with no `Scheduled` event, and further loop
iterations change nothing.  The retry path (`_handle_task_failure`) is
never invoked by `execute_task` or the loop, and `get_next_task` never
returns a `Failed` task. -/
theorem c1_scheduler_never_retries :
    (scheduler_run (.failure "boom") 3 1 [alwaysFailTask]).map
        (fun t => (t.status, t.retries, t.event_log.map TaskEvent.status))
      = [(.Failed, 0, [.Pending, .Running, .Running, .Failed, .Failed])] ∧
    scheduler_run (.failure "boom") 10 1 [alwaysFailTask]
      = scheduler_run (.failure "boom") 3 1 [alwaysFailTask] := by
  exact ⟨rfl, rfl⟩

/-- Claim C2.  A Wasm tool whose `module_path` is `chain://m1` is rejected
by the `Path::new(module_path).exists()` check at the top of
`WasmExecutor::invoke` before the chain index is ever consulted, even
though the configured index resolves `m1` and the content cache already
holds the verified bytes; the resolution flow the claim describes runs
only if that local-filesystem check is bypassed. -/
theorem c2_chain_uri_blocked_by_exists_check :
    resolve_module_bytes c2Env "chain://m1"
        = .error (.invalidState "wasm module not found at \"chain://m1\"") ∧
    resolve_module_bytes { c2Env with pathExists := fun _ => true } "chain://m1"
        = .ok [7, 7] := by
  exact ⟨rfl, rfl⟩

/-- Claim C3, counterexample.  The scheduler's `UpdateTaskStatus` method
and its `cancel_task` use `Task::set_status`, which applies the new status
unconditionally: a `Completed` task is moved to `Running` (and to
`Cancelled`) even though `Completed` has an empty allowed-next set. -/
theorem c3_counterexample_set_status_bypasses_table :
    (scheduler_update_task_status 5 completedTask .Running).status = .Running ∧
    TaskStatus.can_transition_to .Completed .Running = false ∧
    (scheduler_cancel_task 5 completedTask).status = .Cancelled ∧
    TaskStatus.can_transition_to .Completed .Cancelled = false := by
  exact ⟨rfl, rfl, rfl, rfl⟩

/-- Claim C3, amended.  Status changes that go through
`Task::update_status` (the executor's transitions and the `CancelTask`
handler) do respect the allowed-next table; the scheduler's
`update_task_status` and `cancel_task` instead use `Task::set_status` and
apply any target unconditionally. -/
theorem c3_update_status_respects_table :
    (∀ (t : Task) (now : Nat) (s : TaskStatus) (t' : Task),
        t.update_status now s = (t', none) →
        t.status.can_transition_to s = true ∧ t'.status = s) ∧
    (∀ (t : Task) (now : Nat) (s : TaskStatus),
        (scheduler_update_task_status now t s).status = s) ∧
    (∀ (t : Task) (now : Nat), (scheduler_cancel_task now t).status = .Cancelled) := by
  refine ⟨?_, ?_, ?_⟩
  · intro t now s t' h
    by_cases hc : t.status.can_transition_to s = true
    · simp only [Task.update_status, if_pos hc] at h
      injection h with h1 _
      subst h1
      exact ⟨hc, rfl⟩
    · simp only [Task.update_status, if_neg hc] at h
      injection h with _ h2
      cases h2
  · intro t now s
    rfl
  · intro t now
    rfl

/-- Witness for `c3_update_status_respects_table` at a concrete validated
transition (`Pending → Running` on the scenario-6 task). -/
theorem c3_update_status_respects_table_witness :
    TaskStatus.can_transition_to alwaysFailTask.status .Running = true ∧
    ((alwaysFailTask.update_status 1 .Running).fst).status = .Running :=
  c3_update_status_respects_table.1 alwaysFailTask 1 .Running
    (alwaysFailTask.update_status 1 .Running).fst rfl

/-- Claim C4.  `Task::update_status` to a target outside the
allowed-transitions table of the current status returns the
invalid-transition error and leaves the task (status field included)
entirely unchanged. -/
theorem c4_invalid_transition_rejected :
    ∀ (t : Task) (now : Nat) (s : TaskStatus),
      t.status.can_transition_to s = false →
      t.update_status now s =
        (t, some ("Invalid status transition from " ++ t.status.debugName ++
          " to " ++ s.debugName)) := by
  intro t now s h
  simp only [Task.update_status, h]
  simp

/-- Witness for `c4_invalid_transition_rejected`: a `Completed` task asked
to move to `Running`. -/
theorem c4_invalid_transition_rejected_witness :
    completedTask.update_status 9 .Running =
      (completedTask, some "Invalid status transition from Completed to Running") :=
  c4_invalid_transition_rejected completedTask 9 .Running rfl

/-- Claim C5, counterexample.  When the manifest compiled a returns schema
(here `{"type":"string"}`, a validator accepting only JSON strings), the
returns validation is applied to the substituted MCP error result as well,
so an executor failure makes `invoke_tool` return an error instead of the
claimed success. -/
theorem c5_counterexample_returns_schema_rejects_error_result :
    registry_invoke_tool c5Env "t1" (.obj [])
      = .error "Tool returned payload failing returns schema" := by
  exact rfl

/-- Helper: once a manifest entry is selected and the executor has failed,
`invoke_tool` wraps the failure into the MCP error result, provided the
compiled returns validator (if any) accepts that value. -/
theorem registry_run_executor_error (env : RegistryEnv) (stored : StoredManifest)
    (msg : String) (hexec : env.execOutcome = .error msg)
    (hrv : ∀ rv, stored.returns_validator = some rv → rv (errorResultJson msg) = true) :
    registry_run_executor env stored =
      .ok { result := errorResultJson msg, error := none, ranExecutor := true } := by
  unfold registry_run_executor
  rw [hexec]
  cases hrs : stored.returns_validator with
  | none => rfl
  | some rv => simp [hrv rv hrs]

/-- Claim C5, amended.  For a manifest-backed tool whose executor fails,
`invoke_tool` returns success carrying the MCP error result
`{"content":[{"type":"text","text":"error: <message>"}],"isError":true}`
with `error = None`, provided no compiled returns validator rejects that
error value (when one does, `invoke_tool` returns an error instead, as
the counterexample shows). -/
theorem c5_executor_error_is_mcp_error_result :
    ∀ (env : RegistryEnv) (tool_id : String) (params : Json) (tool : Tool)
      (stored : StoredManifest) (msg : String),
      env.getTool tool_id = some tool →
      tool.validate_parameters params = .ok () →
      env.registeredServers.contains tool.server_id = true →
      env.manifests tool.id = some stored →
      (∀ pv, stored.params_validator = some pv → pv params = true) →
      env.execOutcome = .error msg →
      (∀ rv, stored.returns_validator = some rv → rv (errorResultJson msg) = true) →
      registry_invoke_tool env tool_id params =
        .ok { result := errorResultJson msg, error := none, ranExecutor := true } := by
  intro env tid params tool stored msg hget hval hsrv hman hpv hexec hrv
  unfold registry_invoke_tool
  simp only [hget, hval, hsrv, hman, if_true]
  cases hps : stored.params_validator with
  | none => exact registry_run_executor_error env stored msg hexec hrv
  | some pv =>
    simp only [hpv pv hps, Bool.not_true, Bool.false_eq_true, if_false]
    exact registry_run_executor_error env stored msg hexec hrv

/-- Witness for `c5_executor_error_is_mcp_error_result`: a registered
manifest tool with no compiled schemas whose executor fails with
`boom`. -/
theorem c5_executor_error_is_mcp_error_result_witness :
    registry_invoke_tool c5PlainEnv "t1" (.obj [])
      = .ok { result := errorResultJson "boom", error := none, ranExecutor := true } :=
  c5_executor_error_is_mcp_error_result c5PlainEnv "t1" (.obj []) c5Tool
    { params_validator := none, returns_validator := none } "boom"
    rfl rfl rfl rfl (fun _ h => nomatch h) rfl (fun _ h => nomatch h)

/-- Claim C6.  For both executors a payload of exactly
`max_output_bytes` is accepted and one byte more is rejected: the process
executor measures the UTF-8 byte length of the response line, the Wasm
executor the `out_len` returned by the module. -/
theorem c6_output_size_boundary :
    (∀ (parse : String → Option Json) (maxB : Nat) (line : String) (v : Json),
        line.utf8ByteSize = maxB → parse line = some v →
        process_handle_response parse maxB (some line) = .ok v) ∧
    (∀ (parse : String → Option Json) (maxB : Nat) (line : String),
        line.utf8ByteSize = maxB + 1 →
        process_handle_response parse maxB (some line)
          = .error (.invalidState "tool output too large")) ∧
    (∀ maxB : Nat, wasm_check_output_len maxB (Int.ofNat maxB) = .ok ()) ∧
    (∀ maxB : Nat, wasm_check_output_len maxB (Int.ofNat (maxB + 1))
        = .error (.invalidState "tool output too large")) := by
  refine ⟨?_, ?_, ?_, ?_⟩
  · intro parse maxB line v hsize hparse
    simp [process_handle_response, hsize, hparse]
  · intro parse maxB line hsize
    simp [process_handle_response, hsize]
  · intro maxB
    simp [wasm_check_output_len]
  · intro maxB
    simp [wasm_check_output_len]
    omega

/-- Witness for `c6_output_size_boundary` at `max_output_bytes = 2` with
the two-byte line `ab` and the three-byte line `abc` (and lengths 5/6 for
the Wasm check). -/
theorem c6_output_size_boundary_witness :
    process_handle_response (fun _ => some .null) 2 (some "ab") = .ok .null ∧
    process_handle_response (fun _ => some .null) 2 (some "abc")
      = .error (.invalidState "tool output too large") ∧
    wasm_check_output_len 5 (Int.ofNat 5) = .ok () ∧
    wasm_check_output_len 5 (Int.ofNat 6)
      = .error (.invalidState "tool output too large") :=
  ⟨c6_output_size_boundary.1 (fun _ => some .null) 2 "ab" .null rfl rfl,
   c6_output_size_boundary.2.1 (fun _ => some .null) 2 "abc" rfl,
   c6_output_size_boundary.2.2.1 5,
   c6_output_size_boundary.2.2.2 5⟩

/-- Claim C7.  `resolve_chain_uri` prefers the file index, then the HTTP
index, then chain RPC (feature-gated), and otherwise fails with the
configuration error; the file index accepts the flat-map, wrapped-map and
array shapes, injecting the map key as `module_id` when absent (array
items carry their own); and the scenario-5 file
`{"m1":{"uri":"ipfs://cid1","owner":"<hex32>"}}` resolves `chain://m1` to
`ModulePointer{module_id:"m1", uri:"ipfs://cid1"}`. -/
theorem c7_resolution_order_and_index_shapes :
    (∀ (fileJson : Json) (urlFetch rpcF : String → Except Err ModulePointer)
        (rpcFeature : Bool) (uri : String),
        strStartsWith uri "chain://" = true →
        resolve_chain_uri ⟨some (.ok fileJson), some urlFetch, rpcFeature, some rpcF⟩ uri
          = file_fetch_module_pointer fileJson (uri.drop 8)) ∧
    (∀ (urlFetch rpcF : String → Except Err ModulePointer) (rpcFeature : Bool) (uri : String),
        strStartsWith uri "chain://" = true →
        resolve_chain_uri ⟨none, some urlFetch, rpcFeature, some rpcF⟩ uri
          = urlFetch (uri.drop 8)) ∧
    (∀ (rpcF : String → Except Err ModulePointer) (uri : String),
        strStartsWith uri "chain://" = true →
        resolve_chain_uri ⟨none, none, true, some rpcF⟩ uri = rpcF uri) ∧
    (∀ (rpcFeature : Bool) (uri : String),
        strStartsWith uri "chain://" = true →
        resolve_chain_uri ⟨none, none, rpcFeature, none⟩ uri = .error chainConfigErr) ∧
    resolve_chain_uri ⟨some (.ok c7FileJson), none, false, none⟩ "chain://m1" = .ok c7Pointer ∧
    load_map c7WrappedJson = .ok [("m2", c7WrappedPointer)] ∧
    load_map c7ArrayJson = .ok [("m3", c7ArrayPointer)] := by
  refine ⟨?_, ?_, ?_, ?_, rfl, rfl, rfl⟩
  · intro fileJson urlFetch rpcF rpcFeature uri h
    simp [resolve_chain_uri, h]
  · intro urlFetch rpcF rpcFeature uri h
    simp [resolve_chain_uri, h]
  · intro rpcF uri h
    simp [resolve_chain_uri, h]
  · intro rpcFeature uri h
    cases rpcFeature <;> simp [resolve_chain_uri, h]

/-- Witness for `c7_resolution_order_and_index_shapes`: with only the
HTTP index configured the fetcher's answer is returned for the stripped
id, and with nothing configured the configuration error is returned. -/
theorem c7_resolution_order_witness :
    resolve_chain_uri
        ⟨none, some (fun _ => .error Err.notFound), false, some (fun _ => .error Err.notFound)⟩
        "chain://m9" = .error Err.notFound ∧
    resolve_chain_uri ⟨none, none, false, none⟩ "chain://m9" = .error chainConfigErr :=
  ⟨c7_resolution_order_and_index_shapes.2.1 (fun _ => .error Err.notFound)
      (fun _ => .error Err.notFound) false "chain://m9" rfl,
   c7_resolution_order_and_index_shapes.2.2.2.1 false "chain://m9" rfl⟩

/-- Claim C8, counterexample.  A single `tool.json` whose contents cannot
be read to a string (invalid UTF-8 is one way a manifest file can be
malformed) makes the whole `load_manifests` call return an error instead
of being skipped. -/
theorem c8_counterexample_unreadable_manifest_aborts :
    load_manifests true (fun _ => none) [c8BadEntry]
      = .error (.readError "tools/echo/tool.json") := by
  exact rfl

/-- Helper: the walk loop returns exactly the parsed `(manifest, path)`
pairs when every `tool.json` it meets is readable. -/
theorem load_manifests_walk_ok (parse : String → Option Json) :
    ∀ entries : List FsEntry,
      (∀ e ∈ entries, e.is_file = true → e.file_name = "tool.json" → e.content.isSome = true) →
      load_manifests_walk parse entries = .ok (manifest_walk_spec parse entries) := by
  intro entries
  induction entries with
  | nil => intro _; rfl
  | cons e rest ih =>
    intro h
    have hrest := ih (fun x hx => h x (List.mem_cons_of_mem e hx))
    cases hf : e.is_file with
    | false => simp [load_manifests_walk, manifest_walk_spec, hf, hrest]
    | true =>
      by_cases hn : e.file_name = "tool.json"
      · have hc := h e (List.mem_cons_self e rest) hf hn
        obtain ⟨c, hcc⟩ := Option.isSome_iff_exists.mp hc
        cases hp : parse c with
        | none => simp [load_manifests_walk, manifest_walk_spec, hf, hn, hcc, hp, hrest]
        | some m =>
          simp [load_manifests_walk, manifest_walk_spec, hf, hn, hcc, hp, hrest]
          rfl
      · simp [load_manifests_walk, manifest_walk_spec, hf, hn, hrest]

/-- Claim C8, amended.  Every well-formed `tool.json` under the root is
returned as a parsed `(manifest, path)` pair and files that fail JSON
parsing are skipped without aborting — provided every `tool.json` can be
read to a string; a `tool.json` whose read fails (I/O error or invalid
UTF-8) aborts the whole load with an error, as the counterexample
shows. -/
theorem c8_malformed_manifests_skipped :
    ∀ (parse : String → Option Json) (entries : List FsEntry),
      (∀ e ∈ entries, e.is_file = true → e.file_name = "tool.json" → e.content.isSome = true) →
      load_manifests true parse entries = .ok (manifest_walk_spec parse entries) := by
  intro parse entries h
  unfold load_manifests
  simp only [Bool.not_true, Bool.false_eq_true, if_false]
  exact load_manifests_walk_ok parse entries h

/-- Witness for `c8_malformed_manifests_skipped`: a walk with one
well-formed manifest, one manifest that fails parsing, a directory and an
unrelated file returns exactly the one parsed manifest. -/
theorem c8_malformed_manifests_skipped_witness :
    load_manifests true c8Parse c8Entries = .ok [(.str "A", "tools/a/tool.json")] :=
  c8_malformed_manifests_skipped c8Parse c8Entries (by decide)

/-- Claim C9, counterexample.  The source computes the fuel budget with
`u64::saturating_mul`, not exact arithmetic: at
`cpu_time_ms = u64::MAX` (any JSON policy may carry this value) the
product saturates to `u64::MAX`, which differs from the exact
`cpu_time_ms × 10_000`. -/
theorem c9_counterexample_saturating_not_exact :
    fuel_budget U64_MAX ≠ max 1000000 (U64_MAX * 10000) := by
  decide

/-- Claim C9, amended.  The fuel budget is
`max(1_000_000, cpu_time_ms ⊛ 10_000)` with `⊛` the u64 saturating
multiplication: it equals the exact product form whenever
`cpu_time_ms × 10_000` fits in a u64, and clamps to `u64::MAX`
otherwise. -/
theorem c9_fuel_budget_exact_below_saturation :
    (∀ cpu_time_ms : Nat, cpu_time_ms * 10000 ≤ U64_MAX →
        fuel_budget cpu_time_ms = max 1000000 (cpu_time_ms * 10000)) ∧
    fuel_budget U64_MAX = U64_MAX := by
  constructor
  · intro c h
    unfold fuel_budget u64SaturatingMul
    rw [min_eq_left h]
  · decide

/-- Witness for `c9_fuel_budget_exact_below_saturation` at
`cpu_time_ms = 2000` (the default policy value): the budget is the exact
`max(1_000_000, 20_000_000)`. -/
theorem c9_fuel_budget_exact_below_saturation_witness :
    fuel_budget 2000 = max 1000000 (2000 * 10000) :=
  c9_fuel_budget_exact_below_saturation.1 2000 (by norm_num [U64_MAX])

/-- Claim C10, counterexample.  A tool present in the durable tool storage
whose `server_id` is not in the in-memory registered-servers list (which
is re-seeded with only `manifest` at initialization) fails the
server-registration check that precedes the manifest lookup, so the
invocation returns an error rather than the claimed `null` success. -/
theorem c10_counterexample_unregistered_server :
    registry_invoke_tool c10Env "t9" (.obj [])
      = .error "Server with ID ext not registered" := by
  exact rfl

/-- Claim C10, amended.  For a stored tool that passes parameter
validation, whose `server_id` is registered, and that has no manifest
entry (e.g. one added through `register_tool`), `invoke_tool` returns
success with result JSON `null`, `error = None`, and no executor runs;
when the `server_id` is not registered the call errors instead, as the
counterexample shows. -/
theorem c10_no_manifest_yields_null :
    ∀ (env : RegistryEnv) (tool_id : String) (params : Json) (tool : Tool),
      env.getTool tool_id = some tool →
      tool.validate_parameters params = .ok () →
      env.registeredServers.contains tool.server_id = true →
      env.manifests tool.id = none →
      registry_invoke_tool env tool_id params =
        .ok { result := .null, error := none, ranExecutor := false } := by
  intro env tid params tool hget hval hsrv hman
  unfold registry_invoke_tool
  simp only [hget, hval, hsrv, hman, if_true]

/-- Witness for `c10_no_manifest_yields_null`: the stored tool with its
server registered and no manifest entry. -/
theorem c10_no_manifest_yields_null_witness :
    registry_invoke_tool c10GoodEnv "t9" (.obj [])
      = .ok { result := .null, error := none, ranExecutor := false } :=
  c10_no_manifest_yields_null c10GoodEnv "t9" (.obj []) c10Tool rfl rfl rfl rfl

end McpRegistrar
